import Mathlib

/-!
Verification development for the tecken symbol-upload service.

The definitions below are a shallow embedding of the code in
`src/tecken/upload/views.py` (the ingestion pipeline, the archive listing
validator, the per-user bucket override lookup, the stuck-upload reattempt
scan) and of the storage `exists` contract exercised by
`src/tests/test_storage.py`.  Machine integers are modelled as `Nat` with
explicit reduction modulo `2 ^ 32` where the hash arithmetic overflows;
fallible steps return sum types.  External effects (the storage backend
response, the clock, filesystem visibility, the Django cache) are passed in
explicitly as values.
-/

set_option maxRecDepth 40000

namespace Tecken

/-! ## MD5 (embedding of `hashlib.md5(...).hexdigest()`)

The staging key in `upload_archive` uses `hashlib.md5` on the UTF-8 bytes of
the canonicalized listing.  This is the full MD5 of RFC 1321, on `Nat`
values kept below `2 ^ 32`. -/

/-- UTF-8 encoding of a single Unicode code point, as `str.encode("utf-8")`. -/
def utf8EncodeCodePoint (n : Nat) : List Nat :=
  if n < 128 then [n]
  else if n < 2048 then [192 + n / 64, 128 + n % 64]
  else if n < 65536 then [224 + n / 4096, 128 + n / 64 % 64, 128 + n % 64]
  else [240 + n / 262144, 128 + n / 4096 % 64, 128 + n / 64 % 64, 128 + n % 64]

/-- UTF-8 byte sequence of a string. -/
def utf8Bytes (s : String) : List Nat :=
  (s.data.map (fun c => utf8EncodeCodePoint c.toNat)).flatten

/-- Reduction modulo `2 ^ 32`, the word size of MD5 arithmetic. -/
def w32 (n : Nat) : Nat := n % 4294967296

/-- Bitwise complement on 32-bit words (valid for inputs below `2 ^ 32`). -/
def wnot (x : Nat) : Nat := 4294967295 - w32 x

/-- Left rotation of a 32-bit word by `s` bits: the two summands occupy
disjoint bit ranges, so addition coincides with bitwise or. -/
def rotl (x s : Nat) : Nat := w32 (x * 2 ^ s) + x / 2 ^ (32 - s)

/-- The MD5 sine-derived constant table of RFC 1321. -/
def md5K : List Nat :=
  [0xd76aa478, 0xe8c7b756, 0x242070db, 0xc1bdceee,
   0xf57c0faf, 0x4787c62a, 0xa8304613, 0xfd469501,
   0x698098d8, 0x8b44f7af, 0xffff5bb1, 0x895cd7be,
   0x6b901122, 0xfd987193, 0xa679438e, 0x49b40821,
   0xf61e2562, 0xc040b340, 0x265e5a51, 0xe9b6c7aa,
   0xd62f105d, 0x02441453, 0xd8a1e681, 0xe7d3fbc8,
   0x21e1cde6, 0xc33707d6, 0xf4d50d87, 0x455a14ed,
   0xa9e3e905, 0xfcefa3f8, 0x676f02d9, 0x8d2a4c8a,
   0xfffa3942, 0x8771f681, 0x6d9d6122, 0xfde5380c,
   0xa4beea44, 0x4bdecfa9, 0xf6bb4b60, 0xbebfbc70,
   0x289b7ec6, 0xeaa127fa, 0xd4ef3085, 0x04881d05,
   0xd9d4d039, 0xe6db99e5, 0x1fa27cf8, 0xc4ac5665,
   0xf4292244, 0x432aff97, 0xab9423a7, 0xfc93a039,
   0x655b59c3, 0x8f0ccc92, 0xffeff47d, 0x85845dd1,
   0x6fa87e4f, 0xfe2ce6e0, 0xa3014314, 0x4e0811a1,
   0xf7537e82, 0xbd3af235, 0x2ad7d2bb, 0xeb86d391]

/-- The MD5 per-round shift table. -/
def md5S : List Nat :=
  [7, 12, 17, 22, 7, 12, 17, 22, 7, 12, 17, 22, 7, 12, 17, 22,
   5, 9, 14, 20, 5, 9, 14, 20, 5, 9, 14, 20, 5, 9, 14, 20,
   4, 11, 16, 23, 4, 11, 16, 23, 4, 11, 16, 23, 4, 11, 16, 23,
   6, 10, 15, 21, 6, 10, 15, 21, 6, 10, 15, 21, 6, 10, 15, 21]

/-- MD5 round function F. -/
def md5F (b c d : Nat) : Nat := Nat.lor (Nat.land b c) (Nat.land (wnot b) d)

/-- MD5 round function G. -/
def md5G (b c d : Nat) : Nat := Nat.lor (Nat.land d b) (Nat.land (wnot d) c)

/-- MD5 round function H. -/
def md5H (b c d : Nat) : Nat := Nat.xor b (Nat.xor c d)

/-- MD5 round function I. -/
def md5I (b c d : Nat) : Nat := Nat.xor c (Nat.lor b (wnot d))

/-- The first `numBytes` little-endian bytes of `n`. -/
def leBytes (numBytes : Nat) (n : Nat) : List Nat :=
  (List.range numBytes).map (fun i => n / 2 ^ (8 * i) % 256)

/-- MD5 padding: append `0x80`, zero bytes up to 56 mod 64, then the 64-bit
little-endian bit length. -/
def md5Pad (msg : List Nat) : List Nat :=
  msg ++ [128] ++ List.replicate ((119 - msg.length % 64) % 64) 0
      ++ leBytes 8 (msg.length * 8 % 2 ^ 64)

/-- Little-endian 32-bit word `j` of a 64-byte block. -/
def blockWord (block : List Nat) (j : Nat) : Nat :=
  block.getD (4 * j) 0 + 256 * block.getD (4 * j + 1) 0
    + 65536 * block.getD (4 * j + 2) 0 + 16777216 * block.getD (4 * j + 3) 0

/-- One of the 64 MD5 operations on the running state `(a, b, c, d)`. -/
def md5Round (block : List Nat) (st : Nat × Nat × Nat × Nat) (i : Nat) :
    Nat × Nat × Nat × Nat :=
  let a := st.1
  let b := st.2.1
  let c := st.2.2.1
  let d := st.2.2.2
  let fg : Nat × Nat :=
    if i < 16 then (md5F b c d, i)
    else if i < 32 then (md5G b c d, (5 * i + 1) % 16)
    else if i < 48 then (md5H b c d, (3 * i + 5) % 16)
    else (md5I b c d, (7 * i) % 16)
  let tmp := w32 (a + fg.1 + md5K.getD i 0 + blockWord block fg.2)
  (d, w32 (b + rotl tmp (md5S.getD i 0)), b, c)

/-- Process one 64-byte block: run the 64 operations, then add the input
state back in, word-wise modulo `2 ^ 32`. -/
def md5Block (st : Nat × Nat × Nat × Nat) (block : List Nat) :
    Nat × Nat × Nat × Nat :=
  let r := (List.range 64).foldl (md5Round block) st
  (w32 (st.1 + r.1), w32 (st.2.1 + r.2.1),
   w32 (st.2.2.1 + r.2.2.1), w32 (st.2.2.2 + r.2.2.2))

/-- The MD5 initial state. -/
def md5Init : Nat × Nat × Nat × Nat :=
  (0x67452301, 0xefcdab89, 0x98badcfe, 0x10325476)

/-- Split a padded message into its 64-byte blocks. -/
def md5Blocks (padded : List Nat) : List (List Nat) :=
  (List.range (padded.length / 64)).map (fun i => (padded.drop (64 * i)).take 64)

/-- The 16-byte MD5 digest of a byte sequence. -/
def md5Digest (msg : List Nat) : List Nat :=
  let st := (md5Blocks (md5Pad msg)).foldl md5Block md5Init
  leBytes 4 st.1 ++ leBytes 4 st.2.1 ++ leBytes 4 st.2.2.1 ++ leBytes 4 st.2.2.2

/-- The lowercase hex alphabet. -/
def hexAlphabet : List Char := "0123456789abcdef".data

/-- Lowercase hex digit for a value below 16 (total, defaulting to `0`). -/
def hexDigitChar (n : Nat) : Char := hexAlphabet.getD n '0'

/-- Two lowercase hex characters of one byte. -/
def byteHexChars (b : Nat) : List Char := [hexDigitChar (b / 16 % 16), hexDigitChar (b % 16)]

/-- Lowercase hex rendering of a byte sequence. -/
def bytesToHex (bs : List Nat) : List Char := (bs.map byteHexChars).flatten

/-- `hashlib.md5(s.encode("utf-8")).hexdigest()`. -/
def md5Hex (s : String) : String := String.mk (bytesToHex (md5Digest (utf8Bytes s)))

/-! ## String helpers

Kernel-computable counterparts of the Python string operations the views
module uses, working on the character lists underlying `String`. -/

/-- Whether `sub` occurs at the start of `hay` (character lists). -/
def containsAt : List Char → List Char → Bool
  | [], _ => true
  | _ :: _, [] => false
  | a :: as, b :: bs => a == b && containsAt as bs

/-- Python `sub in hay`: contiguous substring containment. -/
def strContainsCL (hay sub : List Char) : Bool :=
  if containsAt sub hay then true
  else
    match hay with
    | [] => false
    | _ :: t => strContainsCL t sub

/-- Python `hay.__contains__(sub)` on strings. -/
def strContains (hay sub : String) : Bool := strContainsCL hay.data sub.data

/-- Python `s.split(sep)` for a one-character separator: splits at every
occurrence and keeps empty fragments. -/
def splitChar (sep : Char) : List Char → List (List Char)
  | [] => [[]]
  | c :: rest =>
    match splitChar sep rest with
    | [] => [[c]]
    | g :: gs => if c == sep then [] :: g :: gs else (c :: g) :: gs

/-- `name.split("/")` from the validator, as a list of strings. -/
def splitSlash (s : String) : List String := (splitChar '/' s.data).map String.mk

/-- Python `s.lower()` (ASCII range, which covers every string the claims
touch). -/
def lowerStr (s : String) : String := String.mk (s.data.map Char.toLower)

/-- Whether `suf` is a suffix of `s` (character lists, checked reversed). -/
def strEndsWith (s suf : String) : Bool := containsAt suf.data.reverse s.data.reverse

/-- Python whitespace recognized by `str.strip()` (ASCII range). -/
def pyIsSpace (c : Char) : Bool :=
  c == ' ' || c == '\t' || c == '\n' || c == '\x0b' || c == '\x0c' || c == '\r'

/-- Python `s.strip()`. -/
def pyStrip (s : String) : String :=
  String.mk (((s.data.dropWhile pyIsSpace).reverse.dropWhile pyIsSpace).reverse)

/-! ## Archive Listing Validator
(`check_symbols_archive_file_listing`, `src/tecken/upload/views.py` 50-77) -/

/-- One member of the uploaded archive listing: a name and a size, as
produced by `get_archive_members`. -/
structure FileListing where
  name : String
  size : Nat
deriving DecidableEq

/-- A character matched by the pattern `[a-f0-9]` with `re.I`. -/
def isHexChar (c : Char) : Bool :=
  ('a' ≤ c && c ≤ 'f') || ('A' ≤ c && c ≤ 'F') || ('0' ≤ c && c ≤ '9')

/-- `_not_hex_characters.findall(s)` is nonempty: some character of `s` is
not a case-insensitive hex digit. -/
def hasNonHexChar (s : String) : Bool := s.data.any (fun c => !(isHexChar c))

/-- The fixed message for a member of unrecognized shape. -/
def unrecognizedMsg : String :=
  "Unrecognized file pattern. Should only be <module>/<hex>/<file> or <name>-symbols.txt and nothing else."

/-- The message naming a denylisted snippet found in a member path. -/
def snippetMsg (snippet : String) : String :=
  "Content of archive file contains the snippet \x27" ++ snippet ++ "\x27 which is not allowed"

/-- `check_symbols_archive_file_listing(file_listings)`: walks the listing in
order; for each member, first scans `settings.DISALLOWED_SYMBOLS_SNIPPETS`
(here the parameter `disallowed`) for a snippet contained in the name, then
checks the `<module>/<hex>/<file>` or `<name>-symbols.txt` shape; returns the
first error, or `none` when every member passes. -/
def check_symbols_archive_file_listing (disallowed : List String) :
    List FileListing → Option String
  | [] => none
  | f :: rest =>
    match disallowed.find? (fun snippet => strContains f.name snippet) with
    | some snippet => some (snippetMsg snippet)
    | none =>
      match splitSlash f.name with
      | [_, mid, _] =>
        if hasNonHexChar mid then some unrecognizedMsg
        else check_symbols_archive_file_listing disallowed rest
      | [_] =>
        if strEndsWith (lowerStr f.name) "-symbols.txt" then
          check_symbols_archive_file_listing disallowed rest
        else some unrecognizedMsg
      | _ => some unrecognizedMsg

/-! ## Glob matching (`fnmatch.fnmatch` as used by `get_bucket_info`)

`fnmatch` translates the pattern to a regex: `*` matches any sequence, `?`
any single character, `[...]` a character class (leading `!` negates, a
leading `]` is literal, `-` forms ranges, and a `[` with no closing `]` is a
literal `[`).  Both arguments are already lowercased by the caller, so the
POSIX case behavior of `fnmatch` is irrelevant here. -/

/-- Scan a character-class body up to the closing `]`; `first` is true right
after the opening `[` (and optional `!`), where `]` is literal.  Returns the
class characters and the rest of the pattern, or `none` when unclosed. -/
def splitClass (first : Bool) : List Char → Option (List Char × List Char)
  | [] => none
  | c :: rest =>
    if c == ']' && !first then some ([], rest)
    else
      match splitClass false rest with
      | none => none
      | some (cls, r) => some (c :: cls, r)

/-- Membership of a character in a scanned class body, with `-` ranges. -/
def classMember (c : Char) : List Char → Bool
  | [] => false
  | a :: '-' :: b :: rest => (a ≤ c && c ≤ b) || classMember c rest
  | a :: rest => (c == a) || classMember c rest

/-- Glob matching with explicit fuel, so that the recursion is structural and
the function evaluates inside the kernel.  Every recursive call strictly
shrinks `pat.length + name.length`, so fuel `pat.length + name.length + 1`
(used by `globMatch` below) can never run out. -/
def globMatchF (fuel : Nat) (pat name : List Char) : Bool :=
  match fuel with
  | 0 => false
  | fuel + 1 =>
    match pat, name with
    | [], n => n.isEmpty
    | '*' :: ps, n =>
      globMatchF fuel ps n ||
        (match n with
         | [] => false
         | _ :: nrest => globMatchF fuel ('*' :: ps) nrest)
    | '?' :: ps, n =>
      (match n with
       | [] => false
       | _ :: nrest => globMatchF fuel ps nrest)
    | '[' :: ps, n =>
      let neg : Bool × List Char :=
        match ps with
        | '!' :: t => (true, t)
        | _ => (false, ps)
      (match splitClass true neg.2 with
       | none =>
         -- unclosed class: the opening bracket is a literal character
         (match n with
          | [] => false
          | m :: nrest => (m == '[') && globMatchF fuel ps nrest)
       | some (cls, r) =>
         (match n with
          | [] => false
          | m :: nrest => (classMember m cls != neg.1) && globMatchF fuel r nrest))
    | p :: ps, n =>
      (match n with
       | [] => false
       | m :: nrest => (m == p) && globMatchF fuel ps nrest)

/-- `fnmatch.fnmatchcase(name, pat)`: glob matching of a whole name. -/
def globMatch (pat name : List Char) : Bool :=
  globMatchF (pat.length + name.length + 1) pat name

/-! ## Bucket override lookup (`get_bucket_info`, views.py 80-104)

`settings.UPLOAD_URL_EXCEPTIONS` is a dict; it is modelled as an ordered
association list (Python dicts iterate in insertion order).  The function
returns `S3Bucket(url)`; `S3Bucket` lives in `tecken/s3.py`, outside the
covered sources, so the model returns the chosen `url` itself. -/

/-- Exact dict membership `key in exceptions` followed by indexing. -/
def lookupExact (key : String) : List (String × String) → Option String
  | [] => none
  | (k, v) :: rest => if k = key then some v else lookupExact key rest

/-- The wildcard scan: the first table entry whose lowercased key
glob-matches the lowercased email. -/
def wildcardScan (emailLower : String) : List (String × String) → Option String
  | [] => none
  | (k, v) :: rest =>
    if globMatch (lowerStr k).data emailLower.data then some v
    else wildcardScan emailLower rest

/-- `get_bucket_info(user)`, reduced to the storage URL it selects: the
default URL unless an override applies.  Mirrors the source: exact dict
lookup of the lowercased email first, otherwise a wildcard scan in table
order; a truthy (non-empty) exception value replaces the default. -/
def get_bucket_info (defaultUrl : String) (exceptions : List (String × String))
    (email : String) : String :=
  let emailLower := lowerStr email
  let exception : Option String :=
    match lookupExact emailLower exceptions with
    | some v => some v
    | none => wildcardScan emailLower exceptions
  match exception with
  | some e => if e = "" then defaultUrl else e
  | none => defaultUrl

/-! ## Staging key (views.py 190-203) -/

/-- Join character lists with a separator (Python `sep.join(...)`). -/
def intercalateCL (sep : List Char) : List (List Char) → List Char
  | [] => []
  | [x] => x
  | x :: xs => x ++ sep ++ intercalateCL sep xs

/-- The canonicalized listing hashed for the staging key: the
newline-joined `name:size` lines, one per member, in listing order. -/
def canonicalContent (listing : List FileListing) : String :=
  String.mk (intercalateCL ['\n']
    (listing.map (fun x => x.name.data ++ [':'] ++ (Nat.repr x.size).data)))

/-- `hashlib.md5(content.encode("utf-8")).hexdigest()[:12]`. -/
def contentFingerprint (listing : List FileListing) : String :=
  String.mk ((md5Hex (canonicalContent listing)).data.take 12)

/-- The staging key format string: `inbox/` date `/` content hash `/` name. -/
def stagingKey (date : String) (listing : List FileListing) (name : String) : String :=
  "inbox/" ++ date ++ "/" ++ contentFingerprint listing ++ "/" ++ name

/-! ## Filesystem visibility poll (views.py 253-262)

```
attempts = 0
while not os.path.isfile(inbox_filepath):
    attempts += 1
    time.sleep(attempts)
    if attempts > 4:
        break
```

`visible i` is what `os.path.isfile` reports at the i-th evaluation of the
loop condition (i = 0 is the test right after the write).  The loop body can
run at most five times before the `attempts > 4` break fires, so the fuel of
6 used by `fsPoll` can never be exhausted. -/

def fsPollLoop (visible : Nat → Bool) :
    Nat → Nat → Nat → List Nat → List Nat × Nat × Bool
  | 0, _, checkIdx, sleeps => (sleeps, checkIdx, false)
  | fuel + 1, attempts, checkIdx, sleeps =>
    if visible checkIdx then (sleeps, checkIdx, true)
    else
      let a := attempts + 1
      let sleeps2 := sleeps ++ [a]
      if a > 4 then (sleeps2, checkIdx, false)
      else fsPollLoop visible fuel a (checkIdx + 1) sleeps2

/-- The whole poll: returns the sleep durations performed (in order), the
number of extra loop-condition checks after the initial one, and whether the
file was seen. -/
def fsPoll (visible : Nat → Bool) : List Nat × Nat × Bool :=
  fsPollLoop visible 6 0 0 []

/-! ## Stuck-upload reattempt scan (views.py 299-324) -/

/-- The fields of an `Upload` row the reattempt query reads. -/
structure UploadRec where
  id : Nat
  created_at : Int
  completed_at : Option Int
  cancelled_at : Option Int
  attempts : Nat
deriving DecidableEq

/-- The queryset filter: incomplete, not cancelled, created strictly before
`now - UPLOAD_REATTEMPT_LIMIT_SECONDS`, attempts below
`UPLOAD_REATTEMPT_LIMIT_TIMES`. -/
def isStuck (limitSeconds : Int) (limitTimes : Nat) (now : Int) (u : UploadRec) : Bool :=
  u.completed_at.isNone && u.cancelled_at.isNone
    && decide (u.created_at < now - limitSeconds) && decide (u.attempts < limitTimes)

/-- Insert into a list sorted by `created_at`. -/
def insertByCreated (u : UploadRec) : List UploadRec → List UploadRec
  | [] => [u]
  | v :: vs => if u.created_at ≤ v.created_at then u :: v :: vs else v :: insertByCreated u vs

/-- `order_by("created_at")`, as an insertion sort. -/
def sortByCreated : List UploadRec → List UploadRec
  | [] => []
  | u :: us => insertByCreated u (sortByCreated us)

/-- The Django cache, as a list of (key, expiry-instant) pairs; a `set`
prepends, and lookups read the most recent entry for the key. -/
def cacheGet (now : Int) (c : List (String × Int)) (key : String) : Option Bool :=
  match c.find? (fun e => e.1 == key) with
  | some e => if now < e.2 then some true else none
  | none => none

/-- `cache.set(key, True, ttlSeconds)` at instant `now`. -/
def cacheSet (now ttl : Int) (key : String) (c : List (String × Int)) :
    List (String × Int) :=
  (key, now + ttl) :: c

/-- The throttle key: `reattempt:` followed by the decimal upload id. -/
def reattemptCacheKey (id : Nat) : String := "reattempt:" ++ Nat.repr id

/-- The loop body over one stuck upload: re-dispatch and set the throttle
entry unless `cache.get` finds one.  The accumulator carries the cache and
the ids dispatched so far. -/
def reattemptStep (limitSeconds : Int) (now : Int)
    (acc : List (String × Int) × List Nat) (u : UploadRec) :
    List (String × Int) × List Nat :=
  let key := reattemptCacheKey u.id
  match cacheGet now acc.1 key with
  | some _ => acc
  | none => (cacheSet now limitSeconds key acc.1, acc.2 ++ [u.id])

/-- The whole reattempt scan: filter, order by creation time, then walk the
stuck uploads re-dispatching the unthrottled ones. -/
def reattemptScan (limitSeconds : Int) (limitTimes : Nat) (now : Int)
    (uploads : List UploadRec) (cache : List (String × Int)) :
    List (String × Int) × List Nat :=
  let stuck := sortByCreated (uploads.filter (isStuck limitSeconds limitTimes now))
  stuck.foldl (reattemptStep limitSeconds now) (cache, [])

/-- Repeated scans over the same single upload at the given instants,
threading the cache; returns the final cache and the instants at which a
re-dispatch was issued. -/
def runScans (limitSeconds : Int) (limitTimes : Nat) (u : UploadRec)
    (cache : List (String × Int)) : List Int → List (String × Int) × List Int
  | [] => (cache, [])
  | t :: ts =>
    let r := reattemptScan limitSeconds limitTimes t [u] cache
    let rest := runScans limitSeconds limitTimes u r.1 ts
    (rest.1, (r.2.map (fun _ => t)) ++ rest.2)

/-! ## The serialized response body (`_serialize_upload`, views.py 332-344) -/

/-- A JSON value that is either `null` or a list of strings, the type of the
`skipped_keys` column. -/
inductive JsonStrList where
  | jnull
  | jlist (xs : List String)
deriving DecidableEq

/-- Whether the serialized value is JSON `null`. -/
def JsonStrList.isNull : JsonStrList → Bool
  | .jnull => true
  | .jlist _ => false

/-- Python `upload.skipped_keys or []`: the right operand when the left is
falsy (`None` or the empty list), the left operand otherwise. -/
def pyOrEmptyList : JsonStrList → List String
  | .jnull => []
  | .jlist l => if l.isEmpty then [] else l

/-- The `Upload` row as created by `upload_archive` and read by
`_serialize_upload`.  `user` holds the uploader email (the serializer reads
`upload.user.email`). -/
structure UploadObj where
  id : Nat
  user : String
  filename : String
  inbox_filepath : Option String
  inbox_key : Option String
  bucket_name : String
  bucket_region : Option String
  bucket_endpoint_url : Option String
  size : Nat
  download_url : Option String
  completed_at : Option Int
  created_at : Int
  skipped_keys : JsonStrList
deriving DecidableEq

/-- The JSON object returned under the `upload` key. -/
structure SerializedUpload where
  id : Nat
  size : Nat
  filename : String
  bucket : String
  region : Option String
  download_url : Option String
  completed_at : Option Int
  created_at : Int
  user : String
  skipped_keys : JsonStrList
deriving DecidableEq

/-- `_serialize_upload(upload)`. -/
def _serialize_upload (u : UploadObj) : SerializedUpload :=
  { id := u.id
    size := u.size
    filename := u.filename
    bucket := u.bucket_name
    region := u.bucket_region
    download_url := u.download_url
    completed_at := u.completed_at
    created_at := u.created_at
    user := u.user
    skipped_keys := .jlist (pyOrEmptyList u.skipped_keys) }

/-! ## Ingestion pipeline (`upload_archive`, views.py 107-329) -/

/-- The request input after the `request.FILES` loop and the
`UploadByDownloadForm` branch: a single uploaded file, a validated
download-by-URL descriptor, or neither. -/
inductive UploadIn where
  | file (name : String) (size : Nat)
  | byUrl (url : String) (name : String) (size : Nat)
  | nothing
deriving DecidableEq

/-- Outcome of `list(get_archive_members(upload, name))`. -/
inductive ArchiveExtract where
  | ok (listing : List FileListing)
  | badZip (msg : String)
  | badExtension (ext : String)
deriving DecidableEq

/-- Outcome of `s3_client.head_bucket(Bucket=...)`: success, or a
`ClientError` carrying a response code. -/
inductive HeadBucketOutcome where
  | ok
  | clientError (code : String) (msg : String)
deriving DecidableEq

/-- The Django settings `upload_archive` reads.  An empty
`UPLOAD_INBOX_DIRECTORY` is falsy in Python, selecting object-store mode. -/
structure UploadSettings where
  DISALLOWED_SYMBOLS_SNIPPETS : List String
  UPLOAD_DEFAULT_URL : String
  UPLOAD_URL_EXCEPTIONS : List (String × String)
  UPLOAD_INBOX_DIRECTORY : String
  UPLOAD_REATTEMPT_LIMIT_SECONDS : Int
  UPLOAD_REATTEMPT_LIMIT_TIMES : Nat
deriving DecidableEq

/-- Modelled from the spec: `S3Bucket` (the StorageURL Resolver,
`tecken/s3.py`) is not among the covered sources.  Only the descriptor
fields `upload_archive` reads are kept: the bucket name, region and endpoint
that the resolver derives from the storage URL. -/
structure S3BucketInfo where
  name : String
  region : Option String
  endpoint_url : Option String
deriving DecidableEq

/-- The HTTP-visible outcome of one ingestion request: a 400 rejection, a
201 success, or an exception propagating out of the view. -/
inductive Response where
  | json400 (error : String)
  | json201 (upload : SerializedUpload)
  | raisedImproperlyConfigured (bucketName : String) (region : Option String)
      (endpoint : Option String)
  | raisedClientError (code : String) (msg : String)
deriving DecidableEq

/-- Everything outside the function that `upload_archive` consults: settings,
the requester, the extracted archive listing, the storage backend responses,
the clock and date, filesystem visibility, the id the record store will
assign, the other `Upload` rows, and the cache contents. -/
structure PipelineEnv where
  settings : UploadSettings
  userEmail : String
  input : UploadIn
  extract : ArchiveExtract
  headBucket : HeadBucketOutcome
  today : String
  bucketOf : String → S3BucketInfo
  fileVisible : Nat → Bool
  newId : Nat
  now : Int
  otherUploads : List UploadRec
  cache : List (String × Int)

/-- Observable effects of one ingestion request: the response, the `Upload`
row created (if any), the filesystem paths written, the object-store puts
(bucket, key), the poll sleeps, the task dispatches in order, and the cache
after the reattempt scan. -/
structure PipelineResult where
  response : Response
  record : Option UploadObj
  fsWrites : List String
  s3Puts : List (String × String)
  sleeps : List Nat
  dispatched : List Nat
  cacheAfter : List (String × Int)

/-- A 400 rejection: no record, no staging write, no dispatch, cache
untouched. -/
def mkRejected (env : PipelineEnv) (msg : String) : PipelineResult :=
  { response := .json400 msg, record := none, fsWrites := [], s3Puts := []
    sleeps := [], dispatched := [], cacheAfter := env.cache }

/-- An exception escaping the view: no record, no staging write, no
dispatch, cache untouched. -/
def mkRaised (env : PipelineEnv) (r : Response) : PipelineResult :=
  { response := r, record := none, fsWrites := [], s3Puts := []
    sleeps := [], dispatched := [], cacheAfter := env.cache }

/-- The name, size and optional download URL of the accepted input. -/
def inputFields : UploadIn → Option (String × Nat × Option String)
  | .file n s => some (n, s, none)
  | .byUrl u n s => some (n, s, some u)
  | .nothing => none

/-- `os.path.join(settings.UPLOAD_INBOX_DIRECTORY, key)` for a relative
`key`. -/
def pathJoin (dir key : String) : String :=
  if strEndsWith dir "/" then dir ++ key else dir ++ "/" ++ key

/-- The tail of a successful request: dispatch the new record, run the
reattempt scan, answer 201. -/
def finishUpload (env : PipelineEnv) (upload_obj : UploadObj)
    (fsWrites : List String) (s3Puts : List (String × String))
    (sleeps : List Nat) : PipelineResult :=
  let scan := reattemptScan env.settings.UPLOAD_REATTEMPT_LIMIT_SECONDS
    env.settings.UPLOAD_REATTEMPT_LIMIT_TIMES env.now env.otherUploads env.cache
  { response := .json201 (_serialize_upload upload_obj)
    record := some upload_obj
    fsWrites := fsWrites
    s3Puts := s3Puts
    sleeps := sleeps
    dispatched := upload_obj.id :: scan.2
    cacheAfter := scan.1 }

/-- `upload_archive(request)`.  Follows views.py 113-329 step by step:
input selection, the size check, listing extraction, the listing validator,
bucket resolution and the `head_bucket` probe, the staging key, the
filesystem/object-store staging fork with record creation, the downstream
dispatch, and the reattempt scan. -/
def upload_archive (env : PipelineEnv) : PipelineResult :=
  match inputFields env.input with
  | none => mkRejected env "Must be multipart form data with at least one file"
  | some (name, size, url) =>
    if size = 0 then mkRejected env "File size 0"
    else
      match env.extract with
      | .badZip msg => mkRejected env msg
      | .badExtension ext =>
        mkRejected env ("Unrecognized archive file extension \"" ++ ext ++ "\"")
      | .ok listing =>
        match check_symbols_archive_file_listing
            env.settings.DISALLOWED_SYMBOLS_SNIPPETS listing with
        | some error => mkRejected env (pyStrip error)
        | none =>
          let bucket_info := env.bucketOf (get_bucket_info
            env.settings.UPLOAD_DEFAULT_URL env.settings.UPLOAD_URL_EXCEPTIONS
            env.userEmail)
          match env.headBucket with
          | .clientError code msg =>
            if code = "404" then
              mkRaised env (.raisedImproperlyConfigured bucket_info.name
                bucket_info.region bucket_info.endpoint_url)
            else
              mkRaised env (.raisedClientError code msg)
          | .ok =>
            let key := stagingKey env.today listing name
            if env.settings.UPLOAD_INBOX_DIRECTORY == "" then
              -- object-store staging mode
              let upload_obj : UploadObj :=
                { id := env.newId, user := env.userEmail, filename := name
                  inbox_filepath := none, inbox_key := some key
                  bucket_name := bucket_info.name
                  bucket_region := bucket_info.region
                  bucket_endpoint_url := bucket_info.endpoint_url
                  size := size, download_url := url, completed_at := none
                  created_at := env.now, skipped_keys := .jnull }
              finishUpload env upload_obj [] [(bucket_info.name, key)] []
            else
              -- filesystem staging mode
              let inbox_filepath := pathJoin env.settings.UPLOAD_INBOX_DIRECTORY key
              let upload_obj : UploadObj :=
                { id := env.newId, user := env.userEmail, filename := name
                  inbox_filepath := some inbox_filepath, inbox_key := none
                  bucket_name := bucket_info.name
                  bucket_region := bucket_info.region
                  bucket_endpoint_url := bucket_info.endpoint_url
                  size := size, download_url := url, completed_at := none
                  created_at := env.now, skipped_keys := .jnull }
              let poll := fsPoll env.fileVisible
              finishUpload env upload_obj [inbox_filepath] [] poll.1

/-! ## Storage bucket existence probe

Modelled from the spec: `StorageBucket.exists` lives in `tecken/storage.py`,
which is not among the covered sources; only its tests
(`src/tests/test_storage.py`) are.  Per the spec (section 4.2), `exists()`
issues a lightweight existence probe and maps a not-found response to
`False`, success to `True`, and authorization-denied or transport failures
to a raised `StorageError`. -/

/-- What the backend answers to the existence probe. -/
inductive ProbeOutcome where
  | success
  | notFound (msg : String)
  | authDenied (msg : String)
  | transportFailure (msg : String)
deriving DecidableEq

/-- The uniform storage error wrapper. -/
inductive StorageError where
  | wrapped (nativeMsg : String)
deriving DecidableEq

/-- Modelled from the spec: `exists()` of the Storage Backend Client. -/
def bucketExists (outcome : ProbeOutcome) : Except StorageError Bool :=
  match outcome with
  | .success => .ok true
  | .notFound _ => .ok false
  | .authDenied m => .error (.wrapped m)
  | .transportFailure m => .error (.wrapped m)

/-! ## Claim-side reference definitions

These follow the wording of the claims (not the source); the theorems below
compare the source embeddings against them. -/

/-- The member shape the C2 claim describes: exactly 3 slash-segments with a
hex middle segment, or a single segment ending case-insensitively in
`-symbols.txt`. -/
def claimedValidShape (name : String) : Bool :=
  match splitSlash name with
  | [_, mid, _] => mid.data.all isHexChar
  | [_] => strEndsWith (lowerStr name) "-symbols.txt"
  | _ => false

/-- The per-member verdict the C2 claim describes: a message naming the
first contained denylisted snippet, else the fixed unrecognized-pattern
message for a bad shape, else no error. -/
def claimedMemberVerdict (disallowed : List String) (m : FileListing) : Option String :=
  match disallowed.find? (fun snippet => strContains m.name snippet) with
  | some snippet => some (snippetMsg snippet)
  | none => if claimedValidShape m.name then none else some unrecognizedMsg

/-- The exact, case-insensitive override match the C6 claim describes. -/
def exactCaseInsensitive (email : String) : List (String × String) → Option String
  | [] => none
  | (k, v) :: rest =>
    if lowerStr k = lowerStr email then some v else exactCaseInsensitive email rest

/-- The override lookup as the C6 claim states it: an exact case-insensitive
match is checked before any wildcard scan, wildcards are evaluated
case-insensitively in table order, and the matching override URL replaces
the default. -/
def claimOverrideUrl (defaultUrl : String) (exceptions : List (String × String))
    (email : String) : String :=
  match exactCaseInsensitive email exceptions with
  | some v => v
  | none =>
    match wildcardScan (lowerStr email) exceptions with
    | some v => v
    | none => defaultUrl

/-- The override lookup as amended to match the code: the lowercased email
is compared verbatim against the table keys (so only an already-lowercase
key can match exactly); otherwise the wildcard patterns are tried
case-insensitively in table order; a matching override replaces the default
only when its URL is non-empty. -/
def amendedOverrideUrl (defaultUrl : String) (exceptions : List (String × String))
    (email : String) : String :=
  let emailLower := lowerStr email
  match lookupExact emailLower exceptions with
  | some v => if v = "" then defaultUrl else v
  | none =>
    match wildcardScan emailLower exceptions with
    | some v => if v = "" then defaultUrl else v
    | none => defaultUrl

/-! ## Concrete fixtures used by the witness theorems -/

/-- An override table where an uppercase exact key is shadowed by an earlier
wildcard entry. -/
def tblC6 : List (String × String) := [("*@x.com", "urlA"), ("USER@X.COM", "urlB")]

/-- A well-formed single-member listing (shape `<module>/<hex>/<file>`). -/
def listingC1 : List FileListing := [⟨"a.pdb/ABC123/a.sym", 10⟩]

/-- A complete, passing ingestion environment in object-store mode. -/
def envC1 : PipelineEnv :=
  { settings :=
      { DISALLOWED_SYMBOLS_SNIPPETS := []
        UPLOAD_DEFAULT_URL := "https://s3.amazonaws.com/default"
        UPLOAD_URL_EXCEPTIONS := []
        UPLOAD_INBOX_DIRECTORY := ""
        UPLOAD_REATTEMPT_LIMIT_SECONDS := 3600
        UPLOAD_REATTEMPT_LIMIT_TIMES := 5 }
    userEmail := "someone@example.com"
    input := .file "symbols.zip" 10
    extract := .ok listingC1
    headBucket := .ok
    today := "2024-05-01"
    bucketOf := fun _ => ⟨"default", none, none⟩
    fileVisible := fun _ => true
    newId := 42
    now := 1000
    otherUploads := []
    cache := [] }

/-- The passing environment, except the bucket probe answers 404. -/
def envC5 : PipelineEnv := { envC1 with headBucket := .clientError "404" "Not Found" }

/-- The passing environment, except the probe answers 403. -/
def envC5b : PipelineEnv := { envC1 with headBucket := .clientError "403" "Forbidden" }

/-- The passing environment, except the uploaded file has size zero. -/
def envC8 : PipelineEnv := { envC1 with input := .file "symbols.zip" 0 }

/-- A stuck upload: created at 0, never completed nor cancelled, no
attempts. -/
def uC3 : UploadRec := ⟨7, 0, none, none, 0⟩

/-- An upload row whose skipped-member column is SQL null. -/
def uploadObjC10 : UploadObj :=
  ⟨1, "someone@example.com", "f.zip", none, some "k", "b", none, none, 10,
    none, none, 0, .jnull⟩

/-! # Sanity checks

Concrete evaluations of the embedded functions, including the RFC 1321 md5
test vectors. -/

example : md5Hex "" = "d41d8cd98f00b204e9800998ecf8427e" := by decide

example : md5Hex "abc" = "900150983cd24fb0d6963f7d28e17f72" := by decide

example : splitSlash "app.pdb/ABC/app.sym" = ["app.pdb", "ABC", "app.sym"] := by decide
example : splitSlash "a//b" = ["a", "", "b"] := by decide
example : splitSlash "readme.txt" = ["readme.txt"] := by decide
example : splitSlash "" = [""] := by decide

example : strEndsWith "crash-symbols.txt" "-symbols.txt" = true := by decide
example : strEndsWith "readme.txt" "-symbols.txt" = false := by decide

example :
    check_symbols_archive_file_listing []
      [⟨"app.pdb/ABCDEF0123456789/app.sym", 1⟩, ⟨"crash-symbols.txt", 2⟩] = none := by
  decide

example :
    check_symbols_archive_file_listing [] [⟨"readme.txt", 1⟩] = some unrecognizedMsg := by
  decide

example :
    check_symbols_archive_file_listing ["flag"] [⟨"a/flag0/b", 1⟩]
      = some (snippetMsg "flag") := by decide

example : check_symbols_archive_file_listing [] [⟨"a//b", 1⟩] = none := by decide

example : globMatch "*@example.com".data "someone@example.com".data = true := by decide
example : globMatch "*@example.com".data "someone@example.org".data = false := by decide
example : globMatch "a?c".data "abc".data = true := by decide
example : globMatch "[a-c]x".data "bx".data = true := by decide
example : globMatch "[!a-c]x".data "bx".data = false := by decide
example : globMatch "user@x.com".data "user@x.com".data = true := by decide

example :
    get_bucket_info "https://s3.amazonaws.com/default" [] "a@b.com"
      = "https://s3.amazonaws.com/default" := by decide

example :
    get_bucket_info "d" [("a@b.com", "u1")] "A@B.com" = "u1" := by decide

example :
    get_bucket_info "d" [("*@b.com", "u2")] "a@b.com" = "u2" := by decide

example :
    stagingKey "2024-05-01" [⟨"xyz", 3⟩] "f.zip"
      = "inbox/2024-05-01/92b4621284ca/f.zip" := by decide

example : fsPoll (fun _ => false) = ([1, 2, 3, 4, 5], 4, false) := by decide
example : fsPoll (fun _ => true) = ([], 0, true) := by decide
example : fsPoll (fun i => i == 2) = ([1, 2], 2, true) := by decide

/-! # Helper lemmas -/

theorem any_not_eq_not_all (l : List Char) (p : Char → Bool) :
    (l.any fun c => !(p c)) = !(l.all p) := by
  induction l with
  | nil => rfl
  | cons c cs ih => simp [List.any_cons, List.all_cons, ih]

theorem hasNonHexChar_eq (s : String) :
    hasNonHexChar s = !(s.data.all isHexChar) :=
  any_not_eq_not_all s.data isHexChar

/-- The validator treats each member exactly as the per-member verdict of
the C2 claim, short-circuiting at the first error. -/
theorem check_cons (dl : List String) (m : FileListing) (rest : List FileListing) :
    check_symbols_archive_file_listing dl (m :: rest) =
      match claimedMemberVerdict dl m with
      | some e => some e
      | none => check_symbols_archive_file_listing dl rest := by
  cases hf : dl.find? (fun snippet => strContains m.name snippet) with
  | some s =>
    simp only [check_symbols_archive_file_listing, claimedMemberVerdict, hf]
  | none =>
    cases hs : splitSlash m.name with
    | nil =>
      simp [check_symbols_archive_file_listing, claimedMemberVerdict,
        claimedValidShape, hf, hs]
    | cons a t =>
      cases t with
      | nil =>
        by_cases he : strEndsWith (lowerStr m.name) "-symbols.txt" = true <;>
          simp [check_symbols_archive_file_listing, claimedMemberVerdict,
            claimedValidShape, hf, hs, he]
      | cons b t2 =>
        cases t2 with
        | nil =>
          simp [check_symbols_archive_file_listing, claimedMemberVerdict,
            claimedValidShape, hf, hs]
        | cons c t3 =>
          cases t3 with
          | nil =>
            by_cases hh : hasNonHexChar b = true
            · have hall : (b.data.all isHexChar) = false := by
                have := hasNonHexChar_eq b
                rw [hh] at this
                simpa using this.symm
              simp [check_symbols_archive_file_listing, claimedMemberVerdict,
                claimedValidShape, hf, hs, hh, hall]
            · have hall : (b.data.all isHexChar) = true := by
                have := hasNonHexChar_eq b
                rw [eq_false_of_ne_true hh] at this
                simpa using this.symm
              simp [check_symbols_archive_file_listing, claimedMemberVerdict,
                claimedValidShape, hf, hs, hh, hall]
          | cons d t4 =>
            simp [check_symbols_archive_file_listing, claimedMemberVerdict,
              claimedValidShape, hf, hs]

theorem check_eq_findSome_verdict (dl : List String) (L : List FileListing) :
    check_symbols_archive_file_listing dl L = L.findSome? (claimedMemberVerdict dl) := by
  induction L with
  | nil => rfl
  | cons m rest ih =>
    rw [check_cons, List.findSome?_cons]
    cases claimedMemberVerdict dl m <;> simp [ih]

theorem claimedMemberVerdict_eq_none (dl : List String) (m : FileListing) :
    claimedMemberVerdict dl m = none ↔
      ((∀ s ∈ dl, strContains m.name s = false) ∧ claimedValidShape m.name = true) := by
  unfold claimedMemberVerdict
  cases hf : dl.find? (fun snippet => strContains m.name snippet) with
  | some s =>
    have hp := List.find?_some hf
    have hmem := List.mem_of_find?_eq_some hf
    simp only [reduceCtorEq, false_iff]
    rintro ⟨hall, -⟩
    exact absurd hp (by simp [hall s hmem])
  | none =>
    have hnone := List.find?_eq_none.mp hf
    by_cases hv : claimedValidShape m.name = true <;> simp [hv]
    intro s hs
    simpa using hnone s hs

theorem response_of_mkRejected (env : PipelineEnv) (m : String) :
    (mkRejected env m).response = .json400 m := rfl

theorem response_of_mkRaised (env : PipelineEnv) (r : Response) :
    (mkRaised env r).response = r := rfl

theorem response_of_finishUpload (env : PipelineEnv) (obj : UploadObj)
    (fs : List String) (s3 : List (String × String)) (sl : List Nat) :
    (finishUpload env obj fs s3 sl).response = .json201 (_serialize_upload obj) := rfl

/-! # Claims -/

/-- Claim C2: the Archive Listing Validator returns no error exactly when
every member that contains no denylisted snippet (and none may) has the
3-segment-hex or `-symbols.txt` shape; a denylisted member is rejected with
a message naming the snippet, any other shape with the fixed
unrecognized-pattern message; the first violating member in listing order
determines the returned error. -/
theorem C2_validator_characterization (dl : List String) (L : List FileListing) :
    check_symbols_archive_file_listing dl L = L.findSome? (claimedMemberVerdict dl) ∧
    (check_symbols_archive_file_listing dl L = none ↔
      ∀ m ∈ L, (∀ s ∈ dl, strContains m.name s = false) ∧
        claimedValidShape m.name = true) := by
  refine ⟨check_eq_findSome_verdict dl L, ?_⟩
  rw [check_eq_findSome_verdict dl L, List.findSome?_eq_none_iff]
  constructor
  · intro h m hm
    exact (claimedMemberVerdict_eq_none dl m).mp (h m hm)
  · intro h m hm
    exact (claimedMemberVerdict_eq_none dl m).mpr (h m hm)

theorem C2_validator_characterization_witness :
    check_symbols_archive_file_listing ["bad"] [⟨"readme.txt", 1⟩]
      = [FileListing.mk "readme.txt" 1].findSome? (claimedMemberVerdict ["bad"]) :=
  (C2_validator_characterization ["bad"] [⟨"readme.txt", 1⟩]).1

/-- Claim C4: `exists()` returns false on a not-found response, true on a
successful probe, and raises `StorageError` on authorization-denied and
transport failures; a false result always means not-found, never
inaccessibility. -/
theorem C4_exists_outcomes :
    (∀ m, bucketExists (.notFound m) = .ok false) ∧
    bucketExists .success = .ok true ∧
    (∀ m, bucketExists (.authDenied m) = .error (.wrapped m)) ∧
    (∀ m, bucketExists (.transportFailure m) = .error (.wrapped m)) ∧
    (∀ o b, bucketExists o = .ok b → (b = false ↔ ∃ m, o = .notFound m)) := by
  refine ⟨fun m => rfl, rfl, fun m => rfl, fun m => rfl, ?_⟩
  intro o b h
  cases o <;> simp [bucketExists] at h <;> simp [← h]

theorem C4_exists_outcomes_witness :
    (false = false ↔ ∃ m,
      (ProbeOutcome.notFound "The specified bucket does not exist" : ProbeOutcome)
        = ProbeOutcome.notFound m) :=
  C4_exists_outcomes.2.2.2.2 (.notFound "The specified bucket does not exist") false
    (C4_exists_outcomes.1 "The specified bucket does not exist")

/-- Claim C8: a request whose input size is zero is rejected with a 400
response reading `File size 0`; no Upload record is created, no staging
write happens, nothing is dispatched. -/
theorem C8_zero_size_rejected (env : PipelineEnv) (name : String) (url : Option String)
    (h : inputFields env.input = some (name, 0, url)) :
    (upload_archive env).response = .json400 "File size 0" ∧
    (upload_archive env).record = none ∧
    (upload_archive env).fsWrites = [] ∧
    (upload_archive env).s3Puts = [] ∧
    (upload_archive env).dispatched = [] := by
  unfold upload_archive
  rw [h]
  simp [mkRejected]

theorem C8_zero_size_rejected_witness :
    (upload_archive envC8).response = .json400 "File size 0" ∧
    (upload_archive envC8).record = none ∧
    (upload_archive envC8).fsWrites = [] ∧
    (upload_archive envC8).s3Puts = [] ∧
    (upload_archive envC8).dispatched = [] :=
  C8_zero_size_rejected envC8 "symbols.zip" none rfl

/-- Claim C9: a member whose path splits into exactly 3 segments with an
empty middle segment and no denylisted snippet is accepted: the hex check
only demands the absence of non-hex characters, which holds vacuously. -/
theorem C9_empty_middle_segment (dl : List String) (m : FileListing) (x y : String)
    (hsplit : splitSlash m.name = [x, "", y])
    (hsnip : ∀ s ∈ dl, strContains m.name s = false) :
    check_symbols_archive_file_listing dl [m] = none := by
  have h1 : dl.find? (fun snippet => strContains m.name snippet) = none :=
    List.find?_eq_none.mpr (fun s hs => by simp [hsnip s hs])
  have hverdict : claimedMemberVerdict dl m = none := by
    unfold claimedMemberVerdict claimedValidShape
    simp [h1, hsplit, hasNonHexChar]
  rw [check_cons, hverdict]
  rfl

theorem C9_empty_middle_segment_witness :
    check_symbols_archive_file_listing ["bad"] [⟨"a//b", 1⟩] = none :=
  C9_empty_middle_segment ["bad"] ⟨"a//b", 1⟩ "a" "b" (by decide) (by decide)

/-- Claim C10: the serialized `skipped_keys` field is always a JSON list:
the null or empty skipped-member column serializes to the empty list, never
to null, and every 201 response body carries a non-null list there. -/
theorem C10_skipped_keys_list (u : UploadObj) :
    (_serialize_upload u).skipped_keys = .jlist (pyOrEmptyList u.skipped_keys) ∧
    (_serialize_upload u).skipped_keys.isNull = false ∧
    ((u.skipped_keys = .jnull ∨ u.skipped_keys = .jlist []) →
      (_serialize_upload u).skipped_keys = .jlist []) ∧
    (∀ env s, (upload_archive env).response = .json201 s →
      s.skipped_keys.isNull = false) := by
  refine ⟨rfl, rfl, ?_, ?_⟩
  · rintro (h | h) <;> simp [_serialize_upload, h, pyOrEmptyList]
  · intro env s h
    unfold upload_archive at h
    repeat' split at h
    all_goals
      simp only [response_of_mkRejected, response_of_mkRaised,
        response_of_finishUpload] at h
    all_goals try simp at h
    all_goals subst h
    all_goals rfl

theorem C10_skipped_keys_list_witness :
    (_serialize_upload uploadObjC10).skipped_keys = .jlist [] :=
  (C10_skipped_keys_list uploadObjC10).2.2.1 (Or.inl rfl)

/-! ### Fingerprint shape lemmas (for C1) -/

theorem length_leBytes (k n : Nat) : (leBytes k n).length = k := by
  simp [leBytes]

theorem length_md5Digest (msg : List Nat) : (md5Digest msg).length = 16 := by
  simp [md5Digest, length_leBytes]

theorem length_bytesToHex (bs : List Nat) : (bytesToHex bs).length = 2 * bs.length := by
  induction bs with
  | nil => rfl
  | cons b t ih =>
    simp [bytesToHex, byteHexChars] at ih ⊢
    omega

theorem md5Hex_data_length (s : String) : (md5Hex s).data.length = 32 := by
  have h := length_bytesToHex (md5Digest (utf8Bytes s))
  rw [length_md5Digest] at h
  simpa [md5Hex] using h

theorem hexDigitChar_mem (n : Nat) : hexDigitChar n ∈ hexAlphabet := by
  rcases Nat.lt_or_ge n 16 with h | h
  · interval_cases n <;> decide
  · unfold hexDigitChar
    rw [List.getD_eq_default _ _ (le_trans (le_of_eq (by decide)) h)]
    decide

theorem mem_hexAlphabet_of_mem_bytesToHex (c : Char) (bs : List Nat)
    (h : c ∈ bytesToHex bs) : c ∈ hexAlphabet := by
  unfold bytesToHex at h
  rcases List.mem_flatten.mp h with ⟨l, hl, hc⟩
  rcases List.mem_map.mp hl with ⟨b, -, rfl⟩
  simp [byteHexChars] at hc
  rcases hc with rfl | rfl <;> exact hexDigitChar_mem _

theorem isHexChar_of_mem_hexAlphabet : ∀ c ∈ hexAlphabet, isHexChar c = true := by
  decide

theorem contentFingerprint_length (L : List FileListing) :
    (contentFingerprint L).data.length = 12 := by
  have h : (md5Hex (canonicalContent L)).length = 32 := md5Hex_data_length _
  simp [contentFingerprint, List.length_take]
  omega

theorem contentFingerprint_hex (L : List FileListing) :
    ∀ c ∈ (contentFingerprint L).data, isHexChar c = true := by
  intro c hc
  have h1 : c ∈ (md5Hex (canonicalContent L)).data :=
    List.take_subset _ _ (by simpa [contentFingerprint] using hc)
  have h2 : c ∈ bytesToHex (md5Digest (utf8Bytes (canonicalContent L))) := by
    simpa [md5Hex] using h1
  exact isHexChar_of_mem_hexAlphabet _ (mem_hexAlphabet_of_mem_bytesToHex _ _ h2)

/-- Claim C1: a staged archive gets the key
`inbox/<date>/<fingerprint>/<filename>` where the fingerprint is the
12-character hex prefix of the md5 of the newline-joined `name:size` lines;
identical listings on the same day give identical keys, and on different
days the keys differ only in the date segment. -/
theorem C1_staging_key (env : PipelineEnv) (name : String) (size : Nat)
    (url : Option String) (listing : List FileListing)
    (h1 : inputFields env.input = some (name, size, url))
    (h2 : size ≠ 0)
    (h3 : env.extract = .ok listing)
    (h4 : check_symbols_archive_file_listing
      env.settings.DISALLOWED_SYMBOLS_SNIPPETS listing = none)
    (h5 : env.headBucket = .ok)
    (h6 : env.settings.UPLOAD_INBOX_DIRECTORY = "") :
    (∃ u, (upload_archive env).record = some u ∧
      u.inbox_key = some (stagingKey env.today listing name) ∧
      (upload_archive env).s3Puts.map Prod.snd = [stagingKey env.today listing name]) ∧
    stagingKey env.today listing name
      = "inbox/" ++ env.today ++ "/" ++ contentFingerprint listing ++ "/" ++ name ∧
    contentFingerprint listing
      = String.mk ((md5Hex (canonicalContent listing)).data.take 12) ∧
    (contentFingerprint listing).data.length = 12 ∧
    (∀ c ∈ (contentFingerprint listing).data, isHexChar c = true) ∧
    (∀ L2, canonicalContent L2 = canonicalContent listing →
      ∀ d, stagingKey d L2 name = stagingKey d listing name) ∧
    (∀ d1 d2,
      stagingKey d1 listing name
        = "inbox/" ++ d1 ++ "/" ++ contentFingerprint listing ++ "/" ++ name ∧
      stagingKey d2 listing name
        = "inbox/" ++ d2 ++ "/" ++ contentFingerprint listing ++ "/" ++ name) := by
  refine ⟨?_, rfl, rfl, contentFingerprint_length listing,
    contentFingerprint_hex listing, ?_, fun d1 d2 => ⟨rfl, rfl⟩⟩
  · unfold upload_archive
    rw [h1]
    simp only [h3, h4, h5, h6]
    simp [h2, finishUpload]
  · intro L2 hL2 d
    simp [stagingKey, contentFingerprint, hL2]

theorem C1_staging_key_witness :
    ∃ u, (upload_archive envC1).record = some u ∧
      u.inbox_key = some (stagingKey envC1.today listingC1 "symbols.zip") ∧
      (upload_archive envC1).s3Puts.map Prod.snd
        = [stagingKey envC1.today listingC1 "symbols.zip"] :=
  (C1_staging_key envC1 "symbols.zip" 10 none listingC1 rfl (by decide) rfl
    (by decide) rfl rfl).1

/-- Claim C5: when the pre-staging `head_bucket` probe reports 404, the
request raises `ImproperlyConfigured` (never a 400 JSON rejection) without
creating a record, staging anything or dispatching; any other `ClientError`
propagates as-is.  The view makes exactly one probe per request: there is no
retry path. -/
theorem C5_head_bucket_errors (env : PipelineEnv) (name : String) (size : Nat)
    (url : Option String) (listing : List FileListing) (code msg : String)
    (h1 : inputFields env.input = some (name, size, url))
    (h2 : size ≠ 0)
    (h3 : env.extract = .ok listing)
    (h4 : check_symbols_archive_file_listing
      env.settings.DISALLOWED_SYMBOLS_SNIPPETS listing = none)
    (h5 : env.headBucket = .clientError code msg) :
    (upload_archive env).record = none ∧
    (upload_archive env).fsWrites = [] ∧
    (upload_archive env).s3Puts = [] ∧
    (upload_archive env).dispatched = [] ∧
    (code = "404" →
      (upload_archive env).response = .raisedImproperlyConfigured
        (env.bucketOf (get_bucket_info env.settings.UPLOAD_DEFAULT_URL
          env.settings.UPLOAD_URL_EXCEPTIONS env.userEmail)).name
        (env.bucketOf (get_bucket_info env.settings.UPLOAD_DEFAULT_URL
          env.settings.UPLOAD_URL_EXCEPTIONS env.userEmail)).region
        (env.bucketOf (get_bucket_info env.settings.UPLOAD_DEFAULT_URL
          env.settings.UPLOAD_URL_EXCEPTIONS env.userEmail)).endpoint_url ∧
      ∀ m, (upload_archive env).response ≠ .json400 m) ∧
    (code ≠ "404" →
      (upload_archive env).response = .raisedClientError code msg) := by
  have hbase : upload_archive env =
      if code = "404" then
        mkRaised env (.raisedImproperlyConfigured
          (env.bucketOf (get_bucket_info env.settings.UPLOAD_DEFAULT_URL
            env.settings.UPLOAD_URL_EXCEPTIONS env.userEmail)).name
          (env.bucketOf (get_bucket_info env.settings.UPLOAD_DEFAULT_URL
            env.settings.UPLOAD_URL_EXCEPTIONS env.userEmail)).region
          (env.bucketOf (get_bucket_info env.settings.UPLOAD_DEFAULT_URL
            env.settings.UPLOAD_URL_EXCEPTIONS env.userEmail)).endpoint_url)
      else mkRaised env (.raisedClientError code msg) := by
    unfold upload_archive
    rw [h1]
    simp only [h3, h4, h5]
    simp [h2]
  by_cases hc : code = "404" <;>
    rw [hbase] <;> simp [hc, mkRaised]

theorem C5_head_bucket_errors_witness :
    (upload_archive envC5).response
      = .raisedImproperlyConfigured "default" none none ∧
    (upload_archive envC5).record = none ∧
    (upload_archive envC5).s3Puts = [] ∧
    (upload_archive envC5b).response = .raisedClientError "403" "Forbidden" :=
  have h := C5_head_bucket_errors envC5 "symbols.zip" 10 none listingC1 "404"
    "Not Found" rfl (by decide) rfl (by decide) rfl
  have hb := C5_head_bucket_errors envC5b "symbols.zip" 10 none listingC1 "403"
    "Forbidden" rfl (by decide) rfl (by decide) rfl
  ⟨(h.2.2.2.2.1 rfl).1, h.1, h.2.2.1, hb.2.2.2.2.2 (by decide)⟩

/-- Claim C6 (counterexample): the exact-match step compares the lowercased
email against the table keys verbatim, so an uppercase key is not found by
the exact step and an earlier wildcard entry wins instead, contradicting the
claimed exact-before-wildcard case-insensitive order; also, an override
whose URL is empty does not replace the default. -/
theorem C6_counterexample :
    get_bucket_info "https://s3.amazonaws.com/default" tblC6 "user@x.com" = "urlA" ∧
    claimOverrideUrl "https://s3.amazonaws.com/default" tblC6 "user@x.com" = "urlB" ∧
    get_bucket_info "https://s3.amazonaws.com/default" tblC6 "user@x.com"
      ≠ claimOverrideUrl "https://s3.amazonaws.com/default" tblC6 "user@x.com" ∧
    get_bucket_info "https://s3.amazonaws.com/default" [("a@b.com", "")] "a@b.com"
      = "https://s3.amazonaws.com/default" ∧
    claimOverrideUrl "https://s3.amazonaws.com/default" [("a@b.com", "")] "a@b.com"
      = "" := by
  refine ⟨by decide, by decide, by decide, by decide, by decide⟩

/-- Claim C6 (amended): the lowercased email is compared verbatim against
the table keys before any wildcard scan (so only an already-lowercase key
matches exactly); wildcard patterns are evaluated case-insensitively in
table order with the first match winning; a matching override replaces the
default only when its URL is non-empty. -/
theorem C6_amended_override_lookup (d : String) (exc : List (String × String))
    (email : String) :
    get_bucket_info d exc email = amendedOverrideUrl d exc email := by
  unfold get_bucket_info amendedOverrideUrl
  cases h1 : lookupExact (lowerStr email) exc with
  | some v => simp [h1]
  | none =>
    cases h2 : wildcardScan (lowerStr email) exc with
    | some v => simp [h1, h2]
    | none => simp [h1, h2]

theorem C6_amended_override_lookup_witness :
    get_bucket_info "https://s3.amazonaws.com/default" tblC6 "user@x.com"
      = amendedOverrideUrl "https://s3.amazonaws.com/default" tblC6 "user@x.com" :=
  C6_amended_override_lookup "https://s3.amazonaws.com/default" tblC6 "user@x.com"

/-- Claim C7 (counterexample): on a file that never becomes visible, the
loop sleeps 1, 2, 3, 4 and then 5 more seconds before giving up, so the
sleep schedule is not within the claimed 1s, 2s, 3s, 4s backoff. -/
theorem C7_counterexample :
    (fsPoll (fun _ => false)).1 = [1, 2, 3, 4, 5] ∧
    List.isPrefixOf (fsPoll (fun _ => false)).1 [1, 2, 3, 4] = false := by
  decide

/-- Claim C7 (amended): the poll makes at most 4 extra existence checks,
preceded by sleeps of 1, 2, 3 and 4 seconds respectively; if a check sees
the file the poll stops immediately with exactly the sleeps performed so
far; if the file never appears the loop sleeps a further 5 seconds and then
gives up, proceeding with the request anyway. -/
theorem C7_amended_fs_poll (visible : Nat → Bool) :
    List.isPrefixOf (fsPoll visible).1 [1, 2, 3, 4, 5] = true ∧
    (fsPoll visible).2.1 ≤ 4 ∧
    ((fsPoll visible).2.2 = true →
      (fsPoll visible).1.length = (fsPoll visible).2.1 ∧
      visible (fsPoll visible).2.1 = true) ∧
    ((fsPoll visible).2.2 = false →
      (fsPoll visible).1 = [1, 2, 3, 4, 5] ∧ (fsPoll visible).2.1 = 4) ∧
    (visible 0 = true → (fsPoll visible).1 = []) := by
  by_cases v0 : visible 0 = true
  · have h : fsPoll visible = ([], 0, true) := by
      simp [fsPoll, fsPollLoop, v0]
    rw [h]
    simp [v0]
  · by_cases v1 : visible 1 = true
    · have h : fsPoll visible = ([1], 1, true) := by
        simp [fsPoll, fsPollLoop, v0, v1]
      rw [h]
      simp [v0, v1]
    · by_cases v2 : visible 2 = true
      · have h : fsPoll visible = ([1, 2], 2, true) := by
          simp [fsPoll, fsPollLoop, v0, v1, v2]
        rw [h]
        simp [v0, v1, v2]
      · by_cases v3 : visible 3 = true
        · have h : fsPoll visible = ([1, 2, 3], 3, true) := by
            simp [fsPoll, fsPollLoop, v0, v1, v2, v3]
          rw [h]
          simp [v0, v1, v2, v3]
        · by_cases v4 : visible 4 = true
          · have h : fsPoll visible = ([1, 2, 3, 4], 4, true) := by
              simp [fsPoll, fsPollLoop, v0, v1, v2, v3, v4]
            rw [h]
            simp [v0, v1, v2, v3, v4]
          · have h : fsPoll visible = ([1, 2, 3, 4, 5], 4, false) := by
              simp [fsPoll, fsPollLoop, v0, v1, v2, v3, v4]
            rw [h]
            simp [v0, v1, v2, v3, v4]

theorem C7_amended_fs_poll_witness :
    (fsPoll (fun i => i == 2)).1.length = (fsPoll (fun i => i == 2)).2.1 ∧
    (fun i => i == 2) (fsPoll (fun i => i == 2)).2.1 = true :=
  (C7_amended_fs_poll (fun i => i == 2)).2.2.1 (by decide)

/-! ### Reattempt-scan lemmas (for C3) -/

theorem scan_single (T : Int) (lt : Nat) (now : Int) (u : UploadRec)
    (c : List (String × Int)) :
    reattemptScan T lt now [u] c =
      if isStuck T lt now u then reattemptStep T now (c, []) u else (c, []) := by
  by_cases h : isStuck T lt now u = true <;>
    simp [reattemptScan, List.filter, h, sortByCreated, insertByCreated]

theorem scan_noop (T : Int) (lt : Nat) (t2 : Int) (u : UploadRec)
    (c : List (String × Int))
    (h : cacheGet t2 c (reattemptCacheKey u.id) = some true) :
    reattemptScan T lt t2 [u] c = (c, []) := by
  rw [scan_single]
  by_cases hs : isStuck T lt t2 u = true <;> simp [hs, reattemptStep, h]

theorem runScans_no_dispatch (T : Int) (lt : Nat) (u : UploadRec) (e : Int)
    (c0 : List (String × Int)) (ts : List Int)
    (hwin : ∀ t2 ∈ ts, t2 < e) :
    runScans T lt u ((reattemptCacheKey u.id, e) :: c0) ts
      = ((reattemptCacheKey u.id, e) :: c0, []) := by
  induction ts with
  | nil => rfl
  | cons t2 ts ih =>
    have hget : cacheGet t2 ((reattemptCacheKey u.id, e) :: c0)
        (reattemptCacheKey u.id) = some true := by
      simp [cacheGet, List.find?, hwin t2 (List.mem_cons_self _ _)]
    rw [runScans, scan_noop T lt t2 u _ hget]
    simp [ih (fun x hx => hwin x (List.mem_cons_of_mem _ hx))]

/-- Claim C3: for a stuck upload (incomplete, non-cancelled, older than the
threshold, attempts below the ceiling), an unthrottled scan re-dispatches it
and sets the throttle entry `reattempt:<id>` with time-to-live equal to the
threshold; any number of further scans within the threshold window dispatch
nothing; a scan only dispatches when no unexpired entry is present; and once
the window has expired a scan re-dispatches again. -/
theorem C3_reattempt_throttle (T : Int) (lt : Nat) (u : UploadRec) (t : Int)
    (c0 : List (String × Int)) (ts : List Int)
    (helig : isStuck T lt t u = true)
    (hnone : cacheGet t c0 (reattemptCacheKey u.id) = none)
    (hwin : ∀ t2 ∈ ts, t2 < t + T) :
    reattemptScan T lt t [u] c0 = ((reattemptCacheKey u.id, t + T) :: c0, [u.id]) ∧
    (runScans T lt u ((reattemptCacheKey u.id, t + T) :: c0) ts).2 = [] ∧
    (∀ t2 c, cacheGet t2 c (reattemptCacheKey u.id) = some true →
      (reattemptScan T lt t2 [u] c).2 = []) ∧
    (∀ t2, t + T ≤ t2 → isStuck T lt t2 u = true →
      (reattemptScan T lt t2 [u] ((reattemptCacheKey u.id, t + T) :: c0)).2
        = [u.id]) := by
  refine ⟨?_, ?_, ?_, ?_⟩
  · rw [scan_single]
    simp [helig, reattemptStep, hnone, cacheSet]
  · rw [runScans_no_dispatch T lt u (t + T) c0 ts hwin]
  · intro t2 c h
    rw [scan_noop T lt t2 u c h]
  · intro t2 hle hstuck
    have hget : cacheGet t2 ((reattemptCacheKey u.id, t + T) :: c0)
        (reattemptCacheKey u.id) = none := by
      simp [cacheGet, List.find?, not_lt.mpr hle]
    rw [scan_single]
    simp [hstuck, reattemptStep, hget, cacheSet]

theorem C3_reattempt_throttle_witness :
    reattemptScan 10 1 100 [uC3] []
      = ((reattemptCacheKey uC3.id, 100 + 10) :: [], [uC3.id]) ∧
    (runScans 10 1 uC3 ((reattemptCacheKey uC3.id, 100 + 10) :: [])
      [101, 105, 109]).2 = [] :=
  have h := C3_reattempt_throttle 10 1 uC3 100 [] [101, 105, 109]
    (by decide) (by decide) (by decide)
  ⟨h.1, h.2.1⟩

end Tecken
